import Mathlib

/-
Shallow embedding of the access-gated per-user scheduler of
daily-income-coach (src/bot.py).

Time is modelled as Int seconds since an arbitrary epoch (the source works
with timezone-aware datetimes and timedeltas; only ordering, subtraction and
adding day-granularity timedeltas occur in the embedded fragment).

The users table (one row per user_id) is modelled as `Option UserRow` for a
single user: `none` is a missing row, string/timestamp columns that are NULL
or empty in SQLite are `Option.none` (the source reads them through
`dt_from_iso`, which maps empty strings to None, and truthiness checks such
as `if not row[1]`).
-/

namespace Coach

/-- CONFIG constants of src/bot.py (TRIAL_DAYS = 3, SUB_DAYS = 30). -/
def TRIAL_DAYS : Int := 3

def SUB_DAYS : Int := 30

/-- timedelta(days = d) expressed in seconds. -/
def daysTimedelta (d : Int) : Int := d * 86400

/-- trial_start + timedelta(days=TRIAL_DAYS) uses this fixed duration. -/
def trialDuration : Int := daysTimedelta TRIAL_DAYS

/-- One row of the users table (src/bot.py init_db):
user_id is the key of the surrounding map and not repeated here. -/
structure UserRow where
  timezone : Option String
  trial_start : Option Int
  subscription_until : Option Int
  last_prompt : Option String
  last_prompt_at : Option Int
deriving DecidableEq

/-- The row `ensure_user` INSERTs for a missing user (src/bot.py 196-199):
timezone NULL, trial_start = now, subscription_until NULL, prompts NULL. -/
def newUserRow (now : Int) : UserRow :=
  { timezone := none
    trial_start := some now
    subscription_until := none
    last_prompt := none
    last_prompt_at := none }

/-- ensure_user (src/bot.py 190-207): if the row is missing, insert a fresh
row with trial_start = now; if the row exists but trial_start is NULL or
empty (falsy), set trial_start = now; otherwise leave the row unchanged. -/
def ensureUser (row : Option UserRow) (now : Int) : UserRow :=
  match row with
  | none => newUserRow now
  | some r => if r.trial_start = none then { r with trial_start := some now } else r

/-- Which mechanism grants access, encoded in the label string that
access_state returns: "Subscription (...)", "Trial (...)" or "Expired". -/
inductive AccessSource
  | subscription
  | trial
  | noAccess
deriving DecidableEq

/-- The (allowed, label) pair access_state returns, with the label decomposed
into its source tag and the exact `left` duration the source computes before
formatting; the "Expired" label carries no duration, encoded as remaining 0. -/
structure AccessDecision where
  granted : Bool
  source : AccessSource
  remaining : Int
deriving DecidableEq

/-- The trial branch of access_state (src/bot.py 306-311): if trial_start is
set, trial_until = trial_start + timedelta(days=TRIAL_DAYS); granted via
trial iff trial_until > now; otherwise "Expired". -/
def trialDecision (r : UserRow) (now : Int) : AccessDecision :=
  match r.trial_start with
  | some ts =>
      if now < ts + trialDuration then
        { granted := true, source := .trial, remaining := ts + trialDuration - now }
      else
        { granted := false, source := .noAccess, remaining := 0 }
  | none => { granted := false, source := .noAccess, remaining := 0 }

/-- The pure evaluation part of access_state (src/bot.py 299-313), applied to
the row as read back after the ensure_user step: subscription branch first
(sub_until set and sub_until > now), else the trial branch. -/
def accessDecision (r : UserRow) (now : Int) : AccessDecision :=
  match r.subscription_until with
  | some su =>
      if now < su then
        { granted := true, source := .subscription, remaining := su - now }
      else trialDecision r now
  | none => trialDecision r now

/-- access_state (src/bot.py 290-313) as the database operation it is: it
first runs ensure_user (line 298) and then evaluates the decision on the
row as stored after that step. Returns the resulting row together with the
decision. -/
def accessState (row : Option UserRow) (now : Int) : UserRow × AccessDecision :=
  let r := ensureUser row now
  (r, accessDecision r now)

/-- The trial_end field of the data model in section 3 of the spec:
trial_start + fixed trial duration, both null or both set. -/
def trial_end (r : UserRow) : Option Int :=
  r.trial_start.map (fun ts => ts + trialDuration)

/-- The evaluation formula exactly as section 4.1 of the spec states it, as a
function of the given record itself: subscription when subscribed_until is
set and subscribed_until > now; else trial when trial_end is set and
trial_end > now; else not granted with remaining 0. Used to compare the
implemented access_state against the specified formula. -/
def evaluateSpec (r : UserRow) (now : Int) : AccessDecision :=
  match r.subscription_until with
  | some su =>
      if now < su then
        { granted := true, source := .subscription, remaining := su - now }
      else
        match trial_end r with
        | some te =>
            if now < te then
              { granted := true, source := .trial, remaining := te - now }
            else
              { granted := false, source := .noAccess, remaining := 0 }
        | none => { granted := false, source := .noAccess, remaining := 0 }
  | none =>
      match trial_end r with
      | some te =>
          if now < te then
            { granted := true, source := .trial, remaining := te - now }
          else
            { granted := false, source := .noAccess, remaining := 0 }
      | none => { granted := false, source := .noAccess, remaining := 0 }

/-- get_subscription_until (src/bot.py 237-243): NULL and missing rows both
read as None. -/
def get_subscription_until (row : Option UserRow) : Option Int :=
  row.bind (fun r => r.subscription_until)

/-- set_subscription_until (src/bot.py 246-255): ensure_user, then UPDATE the
subscription_until column. -/
def set_subscription_until (row : Option UserRow) (now : Int) (u : Option Int) : UserRow :=
  { ensureUser row now with subscription_until := u }

/-- extend_subscription (src/bot.py 258-264): read the current value first
(before any ensure_user runs), take base = current if current > now else now,
add timedelta(days = days) and store it. Returns (new row, new_until). -/
def extend_subscription (row : Option UserRow) (now : Int) (days : Int) : UserRow × Int :=
  let current := get_subscription_until row
  let base :=
    match current with
    | some c => if now < c then c else now
    | none => now
  let newUntil := base + daysTimedelta days
  (set_subscription_until row now (some newUntil), newUntil)

/-- set_timezone (src/bot.py 210-216): ensure_user, then UPDATE timezone. -/
def set_timezone (row : Option UserRow) (now : Int) (tz : String) : UserRow :=
  { ensureUser row now with timezone := some tz }

/-- The database effect of the /revoke admin command (src/bot.py 735):
set_subscription_until(target_id, None). -/
def revoke_db (row : Option UserRow) (now : Int) : UserRow :=
  set_subscription_until row now none

/-- The three reminder kinds reschedule installs. -/
inductive JobKind
  | morning
  | midday
  | evening
deriving DecidableEq

/-- A live job of the PTB job queue as reschedule creates it
(src/bot.py 368-385): named "user:{user_id}:{kind}", run daily at the given
local hour in the given zone. With numeric user ids the name-prefix test
`job.name.startswith(f"user:{user_id}:")` used by the source holds exactly
when the user_id components are equal (a decimal numeral followed by a colon
is a prefix of another such numeral followed by a colon only when the
numerals coincide), so the job is modelled by its decomposed key. -/
structure Job where
  user_id : Nat
  kind : JobKind
  hour : Nat
  tz : String
deriving DecidableEq

/-- DEFAULT_SCHEDULE_HOURS = (8, 12, 20) (src/bot.py 35). -/
def DEFAULT_SCHEDULE_HOURS : Nat × Nat × Nat := (8, 12, 20)

/-- The removal loop shared by reschedule (src/bot.py 363-365) and /revoke
(src/bot.py 738-740): schedule_removal for every job whose name starts with
"user:{user_id}:". -/
def removeUserJobs (q : List Job) (uid : Nat) : List Job :=
  q.filter (fun j => ¬ j.user_id = uid)

/-- reschedule (src/bot.py 359-385): remove all previous jobs of the user,
then run_daily the morning/midday/evening jobs at the DEFAULT_SCHEDULE_HOURS
in the user timezone. No access or timezone precondition is checked inside
reschedule itself. -/
def reschedule (q : List Job) (uid : Nat) (tz : String) : List Job :=
  let q' := removeUserJobs q uid
  q' ++
    [ { user_id := uid, kind := .morning, hour := DEFAULT_SCHEDULE_HOURS.1, tz := tz }
    , { user_id := uid, kind := .midday, hour := DEFAULT_SCHEDULE_HOURS.2.1, tz := tz }
    , { user_id := uid, kind := .evening, hour := DEFAULT_SCHEDULE_HOURS.2.2, tz := tz } ]

/-- N successive reschedule calls for the same user with unchanged state. -/
def rescheduleN (uid : Nat) (tz : String) : Nat → List Job → List Job
  | 0, q => q
  | n + 1, q => rescheduleN uid tz n (reschedule q uid tz)

/-- The live triggers of one user in the queue. -/
def countUserJobs (q : List Job) (uid : Nat) : Nat :=
  (q.filter (fun j => j.user_id = uid)).length

/-- Messages a fired job may emit. The expiryNotice constructor exists so
that "how many expiry notices were sent" is expressible; no code path of
src/bot.py constructs it (the jobs return silently when access is denied,
and the schema has no expired_notified column). -/
inductive SentMessage
  | reminder (kind : JobKind)
  | expiryNotice
deriving DecidableEq

/-- Number of expiry notices in a list of sent messages. -/
def countExpiryNotices (ms : List SentMessage) : Nat :=
  (ms.filter (fun m =>
    match m with
    | .expiryNotice => true
    | _ => false)).length

/-- morning_job (src/bot.py 393-410): consult access_state (which runs
ensure_user); if not allowed, return without sending anything; otherwise
set_last_prompt "morning" and send the morning reminder. -/
def morning_job (row : Option UserRow) (now : Int) : UserRow × List SentMessage :=
  let rd := accessState row now
  if rd.2.granted then
    ( { rd.1 with last_prompt := some "morning", last_prompt_at := some now }
    , [SentMessage.reminder JobKind.morning] )
  else
    (rd.1, [])

/-- main (src/bot.py 785-818): init_db, build the Application, register the
command/payment/admin/message handlers and run_polling. It never iterates
the persisted users and never calls reschedule, so the job queue right after
startup is empty regardless of the persisted snapshot. -/
def mainStartupJobs (_users : List (Nat × UserRow)) : List Job := []

/-- Modelled from the spec: recover_all of section 4.4 is absent from
src/bot.py; per the spec it calls reschedule(user_id) for each persisted
user with a non-empty timezone, where the specified reschedule installs the
three triggers when access is granted and cancels them otherwise. -/
def recover_all_spec (users : List (Nat × UserRow)) (now : Int) (q : List Job) : List Job :=
  users.foldl
    (fun acc p =>
      match p.2.timezone with
      | some tz =>
          if (accessDecision p.2 now).granted then reschedule acc p.1 tz
          else removeUserJobs acc p.1
      | none => acc)
    q

end Coach

namespace Coach

/-! ### Shared lemmas -/

/-- ensure_user leaves a row unchanged when its trial_start is already set. -/
theorem ensureUser_eq_self (r : UserRow) (now : Int) (h : ¬ r.trial_start = none) :
    ensureUser (some r) now = r := by
  simp [ensureUser, h]

/-- The implemented evaluation agrees with the section 4.1 formula on every
row, as a function of the row itself. -/
theorem accessDecision_eq_evaluateSpec (r : UserRow) (now : Int) :
    accessDecision r now = evaluateSpec r now := by
  cases h1 : r.subscription_until <;> cases h2 : r.trial_start <;>
    simp [accessDecision, trialDecision, evaluateSpec, trial_end, h1, h2]

/-- After the removal loop, no job of the user survives the key filter. -/
theorem filter_removeUserJobs (q : List Job) (uid : Nat) :
    (removeUserJobs q uid).filter (fun j => j.user_id = uid) = [] := by
  rw [List.filter_eq_nil_iff]
  intro a ha
  have h := List.of_mem_filter ha
  simp_all

/-- One reschedule call leaves exactly the three fresh triggers. -/
theorem countUserJobs_reschedule (q : List Job) (uid : Nat) (tz : String) :
    countUserJobs (reschedule q uid tz) uid = 3 := by
  simp [countUserJobs, reschedule, List.filter_append, filter_removeUserJobs,
    List.filter, DEFAULT_SCHEDULE_HOURS]

/-- Any chain of reschedule calls that contains at least one call ends with
exactly three triggers. -/
theorem countUserJobs_rescheduleN (uid : Nat) (tz : String) :
    ∀ (n : Nat) (q : List Job),
      countUserJobs (rescheduleN uid tz n (reschedule q uid tz)) uid = 3
  | 0, q => countUserJobs_reschedule q uid tz
  | n + 1, q => countUserJobs_rescheduleN uid tz n (reschedule q uid tz)

/-! ### C1 -/

/-- A user row with every column NULL, as the schema migration in init_db can
produce for a pre-existing database. -/
def rowEmpty : UserRow :=
  { timezone := none, trial_start := none, subscription_until := none,
    last_prompt := none, last_prompt_at := none }

/-- C1 counterexample: on a record with neither subscription_until nor
trial_start set the claimed formula yields not granted with remaining 0, but
access_state first runs ensure_user, which sets trial_start := now, and then
grants via trial with the full trial duration remaining. -/
theorem c1_counterexample :
    rowEmpty.subscription_until = none
    ∧ rowEmpty.trial_start = none
    ∧ evaluateSpec rowEmpty 0
        = { granted := false, source := .noAccess, remaining := 0 }
    ∧ (accessState (some rowEmpty) 0).2
        = { granted := true, source := .trial, remaining := trialDuration } := by
  decide

/-- C1 amended: for every record whose trial_start is set (every record the
program itself ever stores, and the state of any record right after the
ensure_user step access_state begins with), access_state returns exactly the
specified decision: subscription when subscribed_until > now, else trial when
trial_end = trial_start + trial duration > now, else not granted with
remaining 0 — subscription takes precedence whenever both are active. -/
theorem c1_access_formula (r : UserRow) (now : Int) (h : ¬ r.trial_start = none) :
    (accessState (some r) now).2 = evaluateSpec r now := by
  have he : ensureUser (some r) now = r := ensureUser_eq_self r now h
  simp [accessState, he, accessDecision_eq_evaluateSpec]

/-- A row with an active subscription and an old trial, used as the concrete
instance of several theorems below. -/
def rowSubAndTrial : UserRow :=
  { timezone := some "Europe/London", trial_start := some 0,
    subscription_until := some 100, last_prompt := none, last_prompt_at := none }

theorem c1_witness :
    ¬ rowSubAndTrial.trial_start = none
    ∧ (accessState (some rowSubAndTrial) 10).2 = evaluateSpec rowSubAndTrial 10 :=
  ⟨by decide, c1_access_formula rowSubAndTrial 10 (by decide)⟩

/-! ### C2 -/

/-- C2: extend_subscription stores max(current subscribed_until, now) plus the
duration (a missing value counting as now), so the remaining time
subscribed_until - now never decreases across the call and is never negative
afterwards. -/
theorem c2_extend_subscription (row : Option UserRow) (now days : Int) (hd : 0 ≤ days) :
    ((extend_subscription row now days).2
      = (match get_subscription_until row with
         | some c => max c now
         | none => now) + daysTimedelta days)
    ∧ (∀ c, get_subscription_until row = some c →
        c - now ≤ (extend_subscription row now days).2 - now)
    ∧ 0 ≤ (extend_subscription row now days).2 - now
    ∧ ((extend_subscription row now days).1).subscription_until
        = some ((extend_subscription row now days).2) := by
  have hD : 0 ≤ daysTimedelta days := by
    have h86 : (0:Int) ≤ 86400 := by norm_num
    exact mul_nonneg hd h86
  cases hs : get_subscription_until row with
  | none =>
      refine ⟨by simp [extend_subscription, hs], ?_, ?_, ?_⟩
      · intro c hc
        simp at hc
      · simp only [extend_subscription, hs]
        omega
      · simp [extend_subscription, set_subscription_until]
  | some c =>
      have hbase : (if now < c then c else now) = max c now := by
        rcases le_or_lt c now with h | h
        · rw [if_neg (not_lt.mpr h), max_eq_right h]
        · rw [if_pos h, max_eq_left h.le]
      refine ⟨?_, ?_, ?_, ?_⟩
      · simp only [extend_subscription, hs, hbase]
      · intro c' hc'
        injection hc' with hcc
        subst hcc
        simp only [extend_subscription, hs, hbase]
        have hle := le_max_left c now
        linarith
      · simp only [extend_subscription, hs, hbase]
        have hle := le_max_right c now
        linarith
      · simp [extend_subscription, set_subscription_until]

theorem c2_witness :
    (0:Int) ≤ 30
    ∧ (100:Int) - 50 ≤ (extend_subscription (some rowSubAndTrial) 50 30).2 - 50 :=
  ⟨by norm_num,
    (c2_extend_subscription (some rowSubAndTrial) 50 30 (by norm_num)).2.1 100 rfl⟩

/-! ### C3 -/

/-- C3: for a user with a timezone set and access granted, N successive
reschedule calls with unchanged user state leave exactly 3 live triggers for
that user, for every N greater or equal 1, because every pre-existing trigger
keyed to the user_id is removed before the three new ones are installed. -/
theorem c3_reschedule_idempotent (q : List Job) (uid : Nat) (tzName : String)
    (N : Nat) (r : UserRow) (now : Int)
    (htz : r.timezone = some tzName)
    (hacc : (accessDecision r now).granted = true)
    (hN : 1 ≤ N) :
    countUserJobs (rescheduleN uid tzName N q) uid = 3 := by
  cases N with
  | zero => omega
  | succ n => exact countUserJobs_rescheduleN uid tzName n q

theorem c3_witness :
    rowSubAndTrial.timezone = some "Europe/London"
    ∧ (accessDecision rowSubAndTrial 10).granted = true
    ∧ 1 ≤ 2
    ∧ countUserJobs (rescheduleN 7 "Europe/London" 2 []) 7 = 3 :=
  ⟨rfl, by decide, by decide,
    c3_reschedule_idempotent [] 7 "Europe/London" 2 rowSubAndTrial 10 rfl
      (by decide) (by decide)⟩

end Coach

namespace Coach

/-! ### C4 -/

/-- A persisted snapshot with one user who has a timezone and an active
subscription at instant 10. -/
def snapshotA : List (Nat × UserRow) := [(1, rowSubAndTrial)]

/-- C4 counterexample: main installs no triggers at startup, while the
recovery the spec describes (and the trigger set a live pre-restart process
would hold for the same snapshot) has 3 triggers for the user — the
post-restart trigger set is not identical to the pre-restart one. -/
theorem c4_counterexample :
    mainStartupJobs snapshotA = []
    ∧ countUserJobs (recover_all_spec snapshotA 10 []) 1 = 3
    ∧ ¬ recover_all_spec snapshotA 10 [] = mainStartupJobs snapshotA := by
  decide

/-- C4 amended: src/bot.py performs no restart recovery: for every persisted
snapshot the job queue right after main starts holds 0 triggers for every
user, and a trigger set reappears only when a later per-user action (start,
timezone selection, payment, admin activation) calls reschedule, which then
installs the usual 3 triggers. -/
theorem c4_no_startup_recovery (users : List (Nat × UserRow)) (uid : Nat) (tz : String) :
    countUserJobs (mainStartupJobs users) uid = 0
    ∧ countUserJobs (reschedule (mainStartupJobs users) uid tz) uid = 3 :=
  ⟨rfl, countUserJobs_reschedule (mainStartupJobs users) uid tz⟩

/-! ### C5 -/

/-- The row of a user first seen at instant 0: trial runs over days 0-3. -/
def trialRow : UserRow := ensureUser none 0

/-- First expiry episode: a morning trigger fires on day 4, trial lapsed. -/
def fire1 : UserRow × List SentMessage :=
  morning_job (some trialRow) (daysTimedelta 4)

/-- The user pays on day 4: subscription until day 34. -/
def rowAfterPayment : UserRow :=
  (extend_subscription (some fire1.1) (daysTimedelta 4) 30).1

/-- Second expiry episode: a morning trigger fires on day 35. -/
def fire2 : UserRow × List SentMessage :=
  morning_job (some rowAfterPayment) (daysTimedelta 35)

/-- C5 counterexample: grant a trial, let it expire, extend the subscription,
let it expire again; the two firings inside the two expiry episodes send
nothing at all — 0 expiry notices instead of the exactly 2 the claim
requires (the code has no expired_notified flag and no notice path). -/
theorem c5_counterexample :
    (accessDecision trialRow (daysTimedelta 4)).granted = false
    ∧ (accessDecision rowAfterPayment (daysTimedelta 35)).granted = false
    ∧ fire1.2 = []
    ∧ fire2.2 = []
    ∧ countExpiryNotices (fire1.2 ++ fire2.2) = 0 := by
  decide

/-- C5 amended: when a trigger fires for a user whose access evaluates to not
granted, the job returns silently: no message of any kind is sent (in
particular no expiry notice — the schema has no expired_notified column) and
the only state change is the one ensure_user makes inside access_state. -/
theorem c5_no_expiry_notice (row : Option UserRow) (now : Int)
    (h : ((accessState row now).2).granted = false) :
    morning_job row now = ((accessState row now).1, []) := by
  simp [morning_job, h]

/-- A user with a timezone set whose trial (started at 0) has lapsed and who
has no subscription. -/
def rowExpiredTz : UserRow :=
  { timezone := some "Europe/London", trial_start := some 0,
    subscription_until := none, last_prompt := none, last_prompt_at := none }

theorem c5_witness :
    ((accessState (some rowExpiredTz) (daysTimedelta 10)).2).granted = false
    ∧ morning_job (some rowExpiredTz) (daysTimedelta 10)
        = ((accessState (some rowExpiredTz) (daysTimedelta 10)).1, []) :=
  ⟨by decide, c5_no_expiry_notice (some rowExpiredTz) (daysTimedelta 10) (by decide)⟩

/-! ### C6 -/

/-- C6 counterexample: for a user whose precondition is false (timezone set
but access not granted), calling reschedule leaves 3 live triggers, not 0 —
reschedule checks no precondition and always installs. -/
theorem c6_counterexample :
    rowExpiredTz.timezone = some "Europe/London"
    ∧ (accessDecision rowExpiredTz (daysTimedelta 10)).granted = false
    ∧ countUserJobs (reschedule [] 1 "Europe/London") 1 = 3 := by
  refine ⟨rfl, by decide, by decide⟩

/-- C6 amended: reschedule itself never cancels without reinstalling: it
always replaces the user triggers with exactly 3 fresh ones, whatever the
access state; the bare cancellation used by /revoke is the separate removal
loop (modelled by removeUserJobs), which leaves 0 triggers for the user,
while callers of reschedule guard the call with the timezone/access check
instead. -/
theorem c6_reschedule_always_installs (q : List Job) (uid : Nat) (tz : String) :
    countUserJobs (reschedule q uid tz) uid = 3
    ∧ countUserJobs (removeUserJobs q uid) uid = 0 := by
  refine ⟨countUserJobs_reschedule q uid tz, ?_⟩
  simp [countUserJobs, filter_removeUserJobs]

end Coach

namespace Coach

/-! ### C7 -/

/-- After ensure_user the trial_start column is always set. -/
theorem ensureUser_trial_isSome (row : Option UserRow) (now : Int) :
    ¬ (ensureUser row now).trial_start = none := by
  cases row with
  | none => simp [ensureUser, newUserRow]
  | some r =>
      cases h : r.trial_start with
      | none => simp [ensureUser, h]
      | some t => simp [ensureUser, h]

/-- C7: the trial is granted exactly once: ensure_user sets trial_start = now
only when the stored value is unset (a missing row or a NULL column), keeps
any already-set value, and a second call at any later instant returns the row
of the first call unchanged — so trial_start, and with it the derived
trial_end = trial_start + trial duration, equal what a single call produced. -/
theorem c7_grant_trial_once (row : Option UserRow) (now1 now2 : Int) :
    ensureUser (some (ensureUser row now1)) now2 = ensureUser row now1
    ∧ (row.bind (fun r => r.trial_start) = none →
        (ensureUser row now1).trial_start = some now1
        ∧ trial_end (ensureUser row now1) = some (now1 + trialDuration))
    ∧ (∀ t, row.bind (fun r => r.trial_start) = some t →
        (ensureUser row now1).trial_start = some t) := by
  refine ⟨ensureUser_eq_self _ now2 (ensureUser_trial_isSome row now1), ?_, ?_⟩
  · intro h
    cases row with
    | none => simp [ensureUser, newUserRow, trial_end]
    | some r =>
        simp only [Option.some_bind] at h
        simp [ensureUser, h, trial_end]
  · intro t ht
    cases row with
    | none => simp at ht
    | some r =>
        simp only [Option.some_bind] at ht
        simp [ensureUser, ht]

theorem c7_witness :
    ensureUser (some (ensureUser none 5)) 99 = ensureUser none 5
    ∧ (ensureUser none 5).trial_start = some 5 :=
  ⟨(c7_grant_trial_once none 5 99).1, ((c7_grant_trial_once none 5 99).2.1 rfl).1⟩

/-! ### C9 -/

/-- C9 counterexample: the access evaluation is not write-free: called for a
missing row it creates the row with trial_start = now, and called on a row
whose trial_start is unset it changes that field — access_state runs
ensure_user before evaluating. -/
theorem c9_counterexample :
    (accessState none 0).1.trial_start = some 0
    ∧ ¬ (accessState (some rowEmpty) 0).1 = rowEmpty := by
  decide

/-- C9 amended: the access evaluation is total (defined for every row and
instant, absent timestamps meaning no access from that source rather than an
error) and its decision is the pure function accessDecision of the stored
fields and the instant; it leaves the persisted record unchanged whenever
trial_start is already set, but its leading ensure_user step writes
trial_start = now for a missing or trial-less record. -/
theorem c9_frame (r : UserRow) (now : Int) (h : ¬ r.trial_start = none) :
    (accessState (some r) now).1 = r
    ∧ (accessState (some r) now).2 = accessDecision r now := by
  have he : ensureUser (some r) now = r := ensureUser_eq_self r now h
  constructor
  · simp [accessState, he]
  · simp [accessState, he]

theorem c9_witness :
    ¬ rowSubAndTrial.trial_start = none
    ∧ (accessState (some rowSubAndTrial) 123).1 = rowSubAndTrial :=
  ⟨by decide, (c9_frame rowSubAndTrial 123 (by decide)).1⟩

/-! ### C10 -/

/-- C10: each user-row operation — access evaluation, set_timezone,
extend_subscription (through set_subscription_until) and the /revoke path —
leaves the row with trial_start set, because each runs ensure_user before
its write; in particular revoking the subscription of a user who has no row
creates the row with trial_start = now and no subscription, so at any
instant t inside (now, now + trial duration) that user evaluates to granted
via a fresh trial window that started at the moment of revocation. -/
theorem c10_ensure_user_everywhere (now t days : Int) (tzName : String)
    (h1 : now < t) (h2 : t < now + trialDuration) :
    (∀ row : Option UserRow,
        ¬ ((accessState row now).1).trial_start = none
        ∧ ¬ (set_timezone row now tzName).trial_start = none
        ∧ ¬ ((extend_subscription row now days).1).trial_start = none
        ∧ ¬ (revoke_db row now).trial_start = none)
    ∧ (revoke_db none now).subscription_until = none
    ∧ (revoke_db none now).trial_start = some now
    ∧ accessDecision (revoke_db none now) t
        = { granted := true, source := .trial, remaining := now + trialDuration - t } := by
  refine ⟨?_, ?_, ?_, ?_⟩
  · intro row
    refine ⟨?_, ?_, ?_, ?_⟩ <;>
      simp [accessState, set_timezone, extend_subscription, set_subscription_until,
        revoke_db, ensureUser_trial_isSome row now]
  · simp [revoke_db, set_subscription_until]
  · simp [revoke_db, set_subscription_until, ensureUser, newUserRow]
  · simp [revoke_db, set_subscription_until, ensureUser, newUserRow,
      accessDecision, trialDecision, h2]

theorem c10_witness :
    (0:Int) < 1
    ∧ (1:Int) < 0 + trialDuration
    ∧ (revoke_db none 0).trial_start = some 0
    ∧ accessDecision (revoke_db none 0) 1
        = { granted := true, source := AccessSource.trial
            remaining := 0 + trialDuration - 1 } :=
  ⟨by decide, by decide,
    (c10_ensure_user_everywhere 0 1 30 "Europe/London" (by decide) (by decide)).2.2.1,
    (c10_ensure_user_everywhere 0 1 30 "Europe/London" (by decide) (by decide)).2.2.2⟩

end Coach
